import Mathlib

/-!
# Verification of the equity-ai-assistant-bigbrother-v2 backend

A shallow embedding of the conversation-lifecycle manager
(`src/services/conversationManager.js`), the AI orchestration service
(`src/services/aiService.js`) and the broker lookup service
(`src/services/brokerService.js`).

The relational store is modelled as an explicit state (`DBState`) holding the
`Conversations` and `Messages` tables as lists of rows in insertion order;
`INSERT` appends a row, `UPDATE ... WHERE` maps over the rows, and a `SELECT`
with `ORDER BY key DESC` sorts the filtered rows by the key, descending.
Timestamps (`GETDATE()` values) are passed in explicitly as integers, since
wall-clock time is external to the code. Row identifiers produced by
`uuidv4()` are likewise passed in explicitly. JSON metadata objects are
abstracted to the strings `JSON.stringify` produces, which the code never
inspects. Fallible operations (`throw` in the source) return `Except`.
-/

/-- One row of the `Conversations` table, with the columns the code reads and
writes: see the INSERT in `createConversation` and the SELECT in
`getConversation`. -/
structure ConversationRow where
  conversation_id : String
  user_id : String
  created_at : Int
  updated_at : Int
  status : String
  metadata : String
  message_count : Nat
  deriving DecidableEq, Repr

/-- One row of the `Messages` table: see the INSERT in `addMessage` and the
SELECT in `getConversationHistory`. -/
structure MessageRow where
  message_id : String
  conversation_id : String
  role : String
  content : String
  created_at : Int
  metadata : String
  token_count : Nat
  deriving DecidableEq, Repr

/-- The relational store: both tables, rows in insertion order. -/
structure DBState where
  conversations : List ConversationRow
  messages : List MessageRow
  deriving DecidableEq, Repr

/-- Insert an element into a list sorted descending by `key` (stable: an
element with an equal key goes after the existing ones). -/
def insertDesc {α : Type} (key : α → Int) (x : α) : List α → List α
  | [] => [x]
  | y :: ys => if key y < key x then x :: y :: ys else y :: insertDesc key x ys

/-- SQL `ORDER BY key DESC`: sort a list of rows descending by `key`. -/
def sortByDesc {α : Type} (key : α → Int) : List α → List α
  | [] => []
  | x :: xs => insertDesc key x (sortByDesc key xs)

/-- Does `sub` occur as a contiguous run starting at some position of `l`? -/
def listIncludes (sub : List Char) : List Char → Bool
  | [] => sub.isEmpty
  | c :: cs => sub.isPrefixOf (c :: cs) || listIncludes sub cs

/-- JavaScript `String.prototype.includes`: substring containment. -/
def jsIncludes (s sub : String) : Bool :=
  listIncludes sub.toList s.toList

/-- JavaScript `String.prototype.toLowerCase()`: lower-case every character
(character-wise, as `Char.toLower` does for the ASCII range). -/
def jsToLower (s : String) : String :=
  { data := s.data.map Char.toLower }

/-- One role/content pair of the context handed to the response generator. -/
structure ContextEntry where
  role : String
  content : String
  deriving DecidableEq, Repr

namespace AIConfig

/-- The `AI_CONFIG.model` value under the default environment (`AI_MODEL` unset):
`'gpt-4-turbo-preview'`. -/
def model : String := "gpt-4-turbo-preview"

/-- The `SYSTEM_PROMPTS['v2.0'].base` text from `src/config/aiConfig.js`. -/
def basePrompt : String :=
  "You are Rachel, a knowledgeable real estate assistant. Help with property searches, market analysis, viewings, and guidance. Be professional, warm, patient with first-time buyers, efficient with investors. Ask clarifying questions, provide actionable information, respect privacy, never guarantee values."

/-- The `SYSTEM_PROMPTS['v2.0'].conversation` text from `src/config/aiConfig.js`. -/
def conversationPrompt : String :=
  "Continue as Rachel, the real estate assistant. Maintain consistency with conversation history and adapt based on client\x27s experience level, preferences, communication style, and process stage. Reference previous points, ask follow-ups, provide next steps."

/-- The `SYSTEM_PROMPTS['v2.0'].error` text from `src/config/aiConfig.js`. -/
def errorPrompt : String :=
  "I apologize for the technical issue. As Rachel, I can help with property searches, market analysis, viewings, process guidance, and agent connections. Please rephrase your question."

/-- Function `getSystemPrompt(type)` under the default prompt version `'v2.0'`:
`prompts[type] || prompts.base`. -/
def getSystemPrompt (ty : String) : String :=
  if ty = "base" then basePrompt
  else if ty = "conversation" then conversationPrompt
  else if ty = "error" then errorPrompt
  else basePrompt

end AIConfig

namespace ConversationManager

/-- Constructor-time configuration of `ConversationManager`
(`AI_CONVERSATION_MEMORY_LIMIT`, `DATA_RETENTION_DAYS` environment
variables). -/
structure Config where
  maxConversationLength : Nat
  dataRetentionDays : Int
  deriving DecidableEq, Repr

/-- The defaults the constructor falls back to: `|| 20` and `|| 90`. -/
def defaultConfig : Config := { maxConversationLength := 20, dataRetentionDays := 90 }

/-- Function `estimateTokenCount(text)`: `Math.ceil(text.length / 4)`. On a natural
length this is `(length + 3) / 4` in integer division. -/
def estimateTokenCount (text : String) : Nat :=
  (text.length + 3) / 4

/-- Operation `createConversation`: INSERT a fresh row with status `'active'` and
`message_count` 0; `userId || 'anonymous'`. Returns the new state and the
object the JS returns (modelled as the inserted row). -/
def createConversation (s : DBState) (now : Int) (conversationId : String)
    (userId : Option String) (metadata : String) : DBState × ConversationRow :=
  let row : ConversationRow :=
    { conversation_id := conversationId, user_id := userId.getD "anonymous",
      created_at := now, updated_at := now, status := "active",
      metadata := metadata, message_count := 0 }
  ({ s with conversations := s.conversations ++ [row] }, row)

/-- Operation `getConversation`: SELECT the row with the given id whose status is not
`'deleted'`; `null` (here `none`) when no such row exists. -/
def getConversation (s : DBState) (conversationId : String) : Option ConversationRow :=
  s.conversations.find? fun c =>
    c.conversation_id = conversationId && c.status != "deleted"

/-- Operation `addMessage`: one transaction (`BEGIN TRANSACTION; INSERT ...; UPDATE ...;
COMMIT TRANSACTION;`) that inserts the message row and increments the parent
conversation's `message_count` while refreshing `updated_at`. The transaction
is a single state transition here, as the source's transactional boundary
requires. Returns the new state and the inserted message. -/
def addMessage (s : DBState) (now : Int) (messageId conversationId role content metadata : String) :
    DBState × MessageRow :=
  let tokenCount := estimateTokenCount content
  let msg : MessageRow :=
    { message_id := messageId, conversation_id := conversationId, role := role,
      content := content, created_at := now, metadata := metadata,
      token_count := tokenCount }
  ({ conversations := s.conversations.map fun c =>
       if c.conversation_id = conversationId then
         { c with message_count := c.message_count + 1, updated_at := now }
       else c,
     messages := s.messages ++ [msg] }, msg)

/-- The server-side error SQL Server raises when a statement combines `TOP`
with `OFFSET` in one query scope (error 10741). -/
def topOffsetError : String :=
  "A TOP can not be used in the same query or sub-query as a OFFSET."

/-- Operation `getConversationHistory`: computes
`limit || maxConversationLength` and then submits
`SELECT TOP (@limit) ... ORDER BY created_at DESC OFFSET @offset ROWS`.
That statement combines `TOP` with `OFFSET`, which SQL Server refuses to
compile (error 10741), so `executeQuery` rejects on every call — before any
row is read — and the catch block rethrows. Every call fails; the page the
query evidently intended (the most recent `limit` messages after skipping
`offset`, reversed to oldest-first by the JS `.reverse()`) is never
produced. -/
def getConversationHistory (cfg : Config) (s : DBState) (conversationId : String)
    (limit : Option Nat) (offset : Nat) : Except String (List MessageRow) :=
  .error topOffsetError

/-- Operation `buildConversationContext`: retrieve the history (default limit, offset
0), optionally lead with the `'conversation'` system prompt, then one entry
per retrieved message. Its catch block rethrows, so the failure of
`getConversationHistory` propagates to every caller. -/
def buildConversationContext (cfg : Config) (s : DBState) (conversationId : String)
    (includeSystemPrompt : Bool) : Except String (List ContextEntry) :=
  match getConversationHistory cfg s conversationId none 0 with
  | .error e => .error e
  | .ok messages =>
    .ok ((if includeSystemPrompt then
      [{ role := "system", content := AIConfig.getSystemPrompt "conversation" }]
    else []) ++ messages.map fun m => { role := m.role, content := m.content })

/-- Operation `updateConversationStatus`: UPDATE every row with the given id (soft-
deleted rows included — the WHERE clause has no status filter), setting the
status, refreshing `updated_at`, and overwriting the metadata when one is
supplied; `throw new Error('Conversation not found')` exactly when
`rowsAffected[0] === 0`. -/
def updateConversationStatus (s : DBState) (now : Int) (conversationId status : String)
    (metadata : Option String) : Except String DBState :=
  let affected := (s.conversations.filter fun c => c.conversation_id = conversationId).length
  if affected = 0 then .error "Conversation not found"
  else .ok { s with conversations := s.conversations.map (fun c =>
    if c.conversation_id = conversationId then
      { c with status := status, updated_at := now, metadata := metadata.getD c.metadata }
    else c) }

/-- Operation `getUserConversations`: the user's non-deleted conversations ordered by
`updated_at` descending, with OFFSET/FETCH pagination. -/
def getUserConversations (s : DBState) (userId : String) (limit offset : Nat) :
    List ConversationRow :=
  ((sortByDesc (fun c => c.updated_at)
    (s.conversations.filter fun c => c.user_id = userId && c.status != "deleted")).drop
      offset).take limit

/-- Operation `cleanupOldConversations`: `cutoffDate = now - dataRetentionDays` (day
units); UPDATE every non-deleted conversation created strictly before the
cutoff to status `'deleted'`; return `rowsAffected[0]`. -/
def cleanupOldConversations (cfg : Config) (s : DBState) (now : Int) : DBState × Nat :=
  let cutoffDate := now - cfg.dataRetentionDays
  let affected := (s.conversations.filter fun c =>
    c.created_at < cutoffDate && c.status != "deleted").length
  ({ s with conversations := s.conversations.map fun c =>
      if c.created_at < cutoffDate && c.status != "deleted" then
        { c with status := "deleted", updated_at := now }
      else c }, affected)

end ConversationManager

namespace AIService

/-- Function `estimateTokenCount(text)` of `AIService`: `Math.ceil(text.length / 4)`,
the same heuristic re-implemented in `src/services/aiService.js`. -/
def estimateTokenCount (text : String) : Nat :=
  (text.length + 3) / 4

/-- The canned paragraph of the `property`/`house` branch of
`simulateAIResponse`. -/
def propertyResponse : String :=
  "I\x27d be happy to help you with your property search! To provide you with the best recommendations, I\x27d like to know more about what you\x27re looking for. What type of property interests you - residential, commercial, or investment? Also, do you have a preferred location or price range in mind?"

/-- The canned paragraph of the `price`/`market` branch. -/
def pricingResponse : String :=
  "Market analysis is one of my specialties! Property values can vary significantly based on location, property type, and current market conditions. To give you accurate pricing information, could you tell me the specific area you\x27re interested in? I can provide recent sales data and market trends for that location."

/-- The canned paragraph of the `schedule`/`viewing` branch. -/
def schedulingResponse : String :=
  "I can absolutely help you schedule property viewings! I work with a network of experienced real estate agents who can arrange showings at your convenience. What properties are you interested in viewing, and what days/times work best for you?"

/-- The canned paragraph of the `agent`/`realtor` branch. -/
def agentResponse : String :=
  "I\x27d be pleased to connect you with one of our qualified real estate agents! Our agents specialize in different areas and property types. What type of real estate services do you need, and what\x27s your preferred location? This will help me match you with the most suitable agent."

/-- The generic greeting returned when no keyword matches. -/
def greetingResponse : String :=
  "Hello! I\x27m Rachel, your real estate assistant. I\x27m here to help you with property searches, market analysis, scheduling viewings, and connecting you with the right real estate professionals. What can I assist you with today?"

/-- Function `simulateAIResponse`: `conversationContext[length - 1]?.content || ''`,
then a chain of lowercased-substring tests, each branch returning one fixed
paragraph. -/
def simulateAIResponse (conversationContext : List ContextEntry) : String :=
  let userMessage :=
    match conversationContext.getLast? with
    | some entry => entry.content
    | none => ""
  if jsIncludes (jsToLower userMessage) "property" || jsIncludes (jsToLower userMessage) "house" then
    propertyResponse
  else if jsIncludes (jsToLower userMessage) "price" || jsIncludes (jsToLower userMessage) "market" then
    pricingResponse
  else if jsIncludes (jsToLower userMessage) "schedule" || jsIncludes (jsToLower userMessage) "viewing" then
    schedulingResponse
  else if jsIncludes (jsToLower userMessage) "agent" || jsIncludes (jsToLower userMessage) "realtor" then
    agentResponse
  else
    greetingResponse

/-- What `generateAIResponse` returns (the success path carries no `error`
field in JS, modelled as `error := false`). -/
structure AIResponse where
  content : String
  responseTime : Int
  tokenCount : Nat
  model : String
  error : Bool
  deriving DecidableEq, Repr

/-- Function `generateAIResponse`: the `try` block computes a response (its outcome is
the `simOutcome` argument — in this codebase `simulateAIResponse` is total, so
callers pass `.ok`); the `catch` block turns any internal failure into a
result whose content is the fixed `'error'` system prompt, with `tokenCount`
100, instead of re-throwing. `responseTime` is the measured wall-clock delta,
passed in. -/
def generateAIResponse (simOutcome : Except String String) (responseTime : Int) : AIResponse :=
  match simOutcome with
  | .ok response =>
    { content := response, responseTime := responseTime,
      tokenCount := estimateTokenCount response, model := AIConfig.model, error := false }
  | .error _ =>
    { content := AIConfig.getSystemPrompt "error", responseTime := responseTime,
      tokenCount := 100, model := AIConfig.model, error := true }

/-- The external inputs of one `processChatMessage` call: the `uuidv4()`
draws and the `GETDATE()`/`Date.now()` readings it makes. -/
structure ChatEnv where
  newConversationId : String
  userMessageId : String
  assistantMessageId : String
  t0 : Int
  t1 : Int
  t2 : Int
  responseTime : Int
  deriving DecidableEq, Repr

/-- The `metadata` object of a `processChatMessage` result. -/
structure ChatMetadata where
  model : String
  responseTime : Int
  tokenCount : Nat
  messageCount : Nat
  deriving DecidableEq, Repr

/-- The object a successful `processChatMessage` resolves with. -/
structure ChatResult where
  conversationId : String
  response : String
  metadata : ChatMetadata
  deriving DecidableEq, Repr

/-- Operation `processChatMessage`: load (or create) the conversation, build the
context, append the user message, generate the response, append the
assistant message, return id/response/metadata with
`messageCount = conversation.messageCount + 2` read from the conversation
object fetched before the two appends. The JSON metadata attached to the two
messages is abstracted to strings (the code never reads it back). -/
def processChatMessage (cfg : ConversationManager.Config) (env : ChatEnv) (s : DBState)
    (message : String) (conversationIdArg : Option String) (userId : Option String)
    (context : String) : Except String (DBState × ChatResult) :=
  let step1 : Except String (DBState × ConversationRow × List ContextEntry × String) :=
    match conversationIdArg with
    | some cid =>
      match ConversationManager.getConversation s cid with
      | none => .error "Conversation not found"
      | some conv =>
        match ConversationManager.buildConversationContext cfg s cid true with
        | .error e => .error e
        | .ok builtContext => .ok (s, conv, builtContext, cid)
    | none =>
      let created := ConversationManager.createConversation s env.t0 env.newConversationId userId context
      .ok (created.1, created.2,
        [{ role := "system", content := AIConfig.getSystemPrompt "base" }],
        env.newConversationId)
  match step1 with
  | .error e => .error e
  | .ok (s0, conv, ctx0, cid) =>
    let s1 := (ConversationManager.addMessage s0 env.t1 env.userMessageId cid "user" message context).1
    let ctx1 := ctx0 ++ [{ role := "user", content := message }]
    let aiResponse := generateAIResponse (.ok (simulateAIResponse ctx1)) env.responseTime
    let s2 := (ConversationManager.addMessage s1 env.t2 env.assistantMessageId cid "assistant"
      aiResponse.content "assistant-metadata").1
    .ok (s2,
      { conversationId := cid, response := aiResponse.content,
        metadata :=
          { model := AIConfig.model, responseTime := aiResponse.responseTime,
            tokenCount := aiResponse.tokenCount,
            messageCount := conv.message_count + 2 } })

end AIService

namespace BrokerService

/-- One row of the `Properties` table, restricted to the columns
`getMarketAnalysis` reads. Dates are integer day numbers. -/
structure PropertyRow where
  property_id : String
  city : String
  state : String
  zip_code : String
  property_type : String
  status : String
  listing_price : Int
  square_footage : Int
  listing_date : Int
  sold_date : Int
  deriving DecidableEq, Repr

/-- SQL `x LIKE '%location%'`: substring containment. -/
def sqlLike (column location : String) : Bool :=
  jsIncludes column location

/-- The single row a `SELECT COUNT(*), AVG(...), ...` with no `GROUP BY`
returns. `COUNT` is 0 on an empty set; `AVG`/`MIN`/`MAX` are SQL `NULL`
(`none`) on an empty set; `AVG` of integers is integer-valued. -/
structure MarketAggRow where
  total_listings : Nat
  avg_price : Option Int
  min_price : Option Int
  max_price : Option Int
  avg_days_on_market : Option Int
  sold_count : Nat
  active_count : Nat
  avg_square_footage : Option Int
  deriving DecidableEq, Repr

/-- SQL `AVG` over integers: `NULL` when no rows, else the integer mean. -/
def sqlAvg (xs : List Int) : Option Int :=
  if xs.isEmpty then none else some (xs.sum / (xs.length : Int))

/-- The `WHERE` clause of the market-analysis query: location `LIKE` match on
city, state or zip, exact property type, `listing_date >= DATEADD(month, -6,
GETDATE())` (the calendar computation of the window start is external, so the
window start is a parameter). -/
def marketMatch (location propertyType : String) (sixMonthsAgo : Int)
    (p : PropertyRow) : Bool :=
  (sqlLike p.city location || sqlLike p.state location || sqlLike p.zip_code location)
    && p.property_type = propertyType && sixMonthsAgo ≤ p.listing_date

/-- Evaluate the aggregate SELECT of `getMarketAnalysis` over the matching
rows. `DATEDIFF(day, listing_date, CASE WHEN status = 'sold' THEN sold_date
ELSE GETDATE() END)` is the day difference to the sold date or to `now`. -/
def marketAggregate (matched : List PropertyRow) (now : Int) : MarketAggRow :=
  { total_listings := matched.length,
    avg_price := sqlAvg (matched.map fun p => p.listing_price),
    min_price := (matched.map fun p => p.listing_price).min?,
    max_price := (matched.map fun p => p.listing_price).max?,
    avg_days_on_market := sqlAvg (matched.map fun p =>
      (if p.status = "sold" then p.sold_date else now) - p.listing_date),
    sold_count := (matched.filter fun p => p.status = "sold").length,
    active_count := (matched.filter fun p => p.status = "active").length,
    avg_square_footage := sqlAvg (matched.map fun p => p.square_footage) }

/-- JavaScript `Math.round` applied to a value that is either a number (an
integer here) or `null`: `Math.round(null)` is `0`. -/
def jsRound (x : Option Int) : Int := x.getD 0

/-- JavaScript `Math.round(a / b)` for integers with `b > 0`: half-up
rounding, `⌊(2a + b) / (2b)⌋`. -/
def jsRoundDiv (a b : Int) : Int := Int.fdiv (2 * a + b) (2 * b)

/-- The `priceStatistics` object of a market analysis. -/
structure PriceStatistics where
  average : Int
  minimum : Option Int
  maximum : Option Int
  pricePerSquareFoot : Option Int
  deriving DecidableEq, Repr

/-- The `marketActivity` object of a market analysis. -/
structure MarketActivity where
  averageDaysOnMarket : Int
  soldProperties : Nat
  activeListings : Nat
  absorptionRate : Int
  deriving DecidableEq, Repr

/-- The object `getMarketAnalysis` resolves with. -/
structure MarketAnalysis where
  location : String
  propertyType : String
  totalListings : Nat
  priceStatistics : PriceStatistics
  marketActivity : MarketActivity
  averageSquareFootage : Int
  dataRange : String
  deriving DecidableEq, Repr

/-- Operation `getMarketAnalysis`: run the aggregate query (whose recordset always
holds exactly one row — an aggregate SELECT with no `GROUP BY` returns one
row even over zero matches), throw `'No market data found for the specified
location'` only if the recordset is empty, else shape the analysis object
with JavaScript null-coercion (`Math.round(null) = 0`, `null > 0` false). -/
def getMarketAnalysis (properties : List PropertyRow) (location : String)
    (propertyType : String) (now sixMonthsAgo : Int) : Except String MarketAnalysis :=
  let matched := properties.filter (marketMatch location propertyType sixMonthsAgo)
  let recordset : List MarketAggRow := [marketAggregate matched now]
  match recordset with
  | [] => .error "No market data found for the specified location"
  | data :: _ =>
    .ok { location := location, propertyType := propertyType,
          totalListings := data.total_listings,
          priceStatistics :=
            { average := jsRound data.avg_price,
              minimum := data.min_price,
              maximum := data.max_price,
              pricePerSquareFoot :=
                match data.avg_square_footage with
                | some sf => if 0 < sf then some (jsRoundDiv (jsRound data.avg_price) sf) else none
                | none => none },
          marketActivity :=
            { averageDaysOnMarket := jsRound data.avg_days_on_market,
              soldProperties := data.sold_count,
              activeListings := data.active_count,
              absorptionRate :=
                if 0 < data.total_listings then
                  jsRoundDiv (100 * (data.sold_count : Int)) (data.total_listings : Int)
                else 0 },
          averageSquareFootage := jsRound data.avg_square_footage,
          dataRange := "Last 6 months" }

end BrokerService

/-- The per-call inputs of one `addMessage` call in a sequence: its
`GETDATE()` reading, its `uuidv4()` draw, and the role/content/metadata
arguments. -/
structure MsgItem where
  time : Int
  msgId : String
  role : String
  content : String
  meta : String
  deriving DecidableEq, Repr

/-- The `Messages` row a single `addMessage` call with inputs `it` inserts
into conversation `cid`. -/
def itemRow (cid : String) (it : MsgItem) : MessageRow :=
  { message_id := it.msgId, conversation_id := cid, role := it.role,
    content := it.content, created_at := it.time, metadata := it.meta,
    token_count := ConversationManager.estimateTokenCount it.content }

/-- Run a sequence of `addMessage` calls against one conversation, threading
the state. -/
def runAddMessages (cid : String) (s : DBState) (items : List MsgItem) : DBState :=
  items.foldl
    (fun st it =>
      (ConversationManager.addMessage st it.time it.msgId cid it.role it.content it.meta).1)
    s

section SortLemmas

variable {α : Type} (key : α → Int)

theorem insertDesc_append_of_forall_le {x : α} {l : List α}
    (h : ∀ y ∈ l, ¬ key y < key x) : insertDesc key x l = l ++ [x] := by
  induction l with
  | nil => rfl
  | cons y ys ih =>
    have hy : ¬ key y < key x := h y (by simp)
    simp only [insertDesc, if_neg hy, List.cons_append, List.cons.injEq, true_and]
    exact ih fun z hz => h z (by simp [hz])

theorem sortByDesc_of_chronological {l : List α}
    (h : l.Pairwise fun a b => key a < key b) : sortByDesc key l = l.reverse := by
  induction l with
  | nil => rfl
  | cons x xs ih =>
    have hx : ∀ y ∈ xs, key x < key y := (List.pairwise_cons.mp h).1
    have hxs : xs.Pairwise fun a b => key a < key b := (List.pairwise_cons.mp h).2
    simp only [sortByDesc, ih hxs, List.reverse_cons]
    exact insertDesc_append_of_forall_le key fun y hy => by
      have := hx y (List.mem_reverse.mp hy)
      omega

theorem mem_insertDesc {x a : α} {l : List α} :
    a ∈ insertDesc key x l ↔ a = x ∨ a ∈ l := by
  induction l with
  | nil => simp [insertDesc]
  | cons y ys ih =>
    by_cases hy : key y < key x
    · simp [insertDesc, hy]
    · simp only [insertDesc, if_neg hy, List.mem_cons, ih]
      tauto

theorem mem_sortByDesc {a : α} {l : List α} :
    a ∈ sortByDesc key l ↔ a ∈ l := by
  induction l with
  | nil => simp [sortByDesc]
  | cons x xs ih => simp [sortByDesc, mem_insertDesc, ih]

theorem length_insertDesc (x : α) (l : List α) :
    (insertDesc key x l).length = l.length + 1 := by
  induction l with
  | nil => rfl
  | cons y ys ih =>
    by_cases hy : key y < key x
    · simp [insertDesc, hy]
    · simp [insertDesc, hy, ih]

theorem length_sortByDesc (l : List α) :
    (sortByDesc key l).length = l.length := by
  induction l with
  | nil => rfl
  | cons x xs ih => simp [sortByDesc, length_insertDesc, ih]

end SortLemmas

/-- Lemma: `find?` commutes with mapping a function that the search predicate
cannot observe. -/
theorem find?_map_pred_invariant {α : Type} (f : α → α) (p : α → Bool)
    (hp : ∀ a, p (f a) = p a) (l : List α) :
    (l.map f).find? p = (l.find? p).map f := by
  rw [List.find?_map, show p ∘ f = p from funext fun a => hp a]

/-- Lemma: `addMessage` transforms the row `getConversation` sees pointwise: the
UPDATE bumps `message_count` and `updated_at` of the target conversation and
touches nothing else, and the WHERE predicate of `getConversation` is
insensitive to the two updated columns. -/
theorem getConversation_addMessage (s : DBState) (t : Int) (mid cid r c md cid2 : String) :
    ConversationManager.getConversation
        ((ConversationManager.addMessage s t mid cid r c md).1) cid2
      = (ConversationManager.getConversation s cid2).map fun row =>
          if row.conversation_id = cid then
            { row with message_count := row.message_count + 1, updated_at := t }
          else row := by
  simp only [ConversationManager.addMessage, ConversationManager.getConversation]
  exact find?_map_pred_invariant _ _
    (fun a => by by_cases h : a.conversation_id = cid <;> simp [h]) s.conversations

/-- A found conversation row satisfies the WHERE clause: its id is the one
sought and its status is not `'deleted'`. -/
theorem getConversation_found {s : DBState} {cid : String} {conv : ConversationRow}
    (h : ConversationManager.getConversation s cid = some conv) :
    conv.conversation_id = cid ∧ conv.status ≠ "deleted" := by
  have := List.find?_some
    (p := fun c : ConversationRow => c.conversation_id = cid && c.status != "deleted")
    (by simpa [ConversationManager.getConversation] using h)
  simpa using this

/-- Iterated `addMessage`: the conversation row stays visible and its
`message_count` grows by exactly the number of calls. -/
theorem runAddMessages_messageCount (cid : String) (items : List MsgItem) :
    ∀ (s : DBState) (conv : ConversationRow),
      ConversationManager.getConversation s cid = some conv →
      ∃ conv2, ConversationManager.getConversation (runAddMessages cid s items) cid = some conv2
        ∧ conv2.message_count = conv.message_count + items.length := by
  induction items with
  | nil =>
    intro s conv h
    exact ⟨conv, by simpa [runAddMessages] using h, by simp⟩
  | cons it its ih =>
    intro s conv h
    have hid : conv.conversation_id = cid := (getConversation_found h).1
    have hstep : ConversationManager.getConversation
        ((ConversationManager.addMessage s it.time it.msgId cid it.role it.content it.meta).1) cid
        = some { conv with message_count := conv.message_count + 1, updated_at := it.time } := by
      rw [getConversation_addMessage, h]
      simp [hid]
    obtain ⟨conv2, h2, hc2⟩ := ih _ _ hstep
    refine ⟨conv2, by simpa [runAddMessages, List.foldl_cons] using h2, ?_⟩
    have hc2n : conv2.message_count = conv.message_count + 1 + its.length := hc2
    simp only [List.length_cons]
    omega

/-- A single `addMessage` raises the visible `message_count` of the target
conversation by exactly one (and keeps the conversation visible). -/
theorem getConversation_addMessage_count (s : DBState) (t : Int) (mid cid r c md : String) :
    ((ConversationManager.getConversation
        ((ConversationManager.addMessage s t mid cid r c md).1) cid).map
      fun row => row.message_count)
      = ((ConversationManager.getConversation s cid).map fun row => row.message_count + 1) := by
  rw [getConversation_addMessage]
  cases h : ConversationManager.getConversation s cid with
  | none => rfl
  | some conv =>
    have hid := (getConversation_found h).1
    simp [hid]

/-- After `createConversation` with an id no existing row carries, the new
conversation is visible and is the inserted row. -/
theorem getConversation_createConversation (s : DBState) (t0 : Int) (cid : String)
    (uid : Option String) (md : String)
    (hfresh : ∀ c ∈ s.conversations, c.conversation_id ≠ cid) :
    ConversationManager.getConversation
        ((ConversationManager.createConversation s t0 cid uid md).1) cid
      = some (ConversationManager.createConversation s t0 cid uid md).2 := by
  simp only [ConversationManager.createConversation, ConversationManager.getConversation]
  rw [List.find?_append]
  have h1 : s.conversations.find?
      (fun c => c.conversation_id = cid && c.status != "deleted") = none := by
    rw [List.find?_eq_none]
    intro c hc
    simp [hfresh c hc]
  rw [h1]
  simp [List.find?]

/-- Iterated `addMessage` appends exactly the corresponding message rows, in
call order, to the `Messages` table. -/
theorem runAddMessages_messages (cid : String) (items : List MsgItem) :
    ∀ s : DBState, (runAddMessages cid s items).messages = s.messages ++ items.map (itemRow cid) := by
  induction items with
  | nil => intro s; simp [runAddMessages]
  | cons it its ih =>
    intro s
    simp only [runAddMessages, List.foldl_cons] at ih ⊢
    rw [ih]
    simp [ConversationManager.addMessage, itemRow, List.append_assoc]

/-- C1 (code bug evidence): the counter and atomicity halves of the claim
hold on the code — after `createConversation` and `N` successful
`addMessage` calls on the fresh conversation its `message_count` is `N`, and
each `addMessage` is one `BEGIN TRANSACTION ... COMMIT` state transition
that appends the message row and increments the counter together — but the
history half cannot: the history query combines `TOP (@limit)` with
`OFFSET`, which SQL Server rejects (error 10741), so every
`getConversationHistory` call fails with that error instead of returning
the `N` messages in chronological order. -/
theorem addMessage_count_atomic_history_error
    (cfg : ConversationManager.Config) (s : DBState) (t0 : Int) (cid : String)
    (uid : Option String) (meta : String) (items : List MsgItem)
    (hfreshConv : ∀ c ∈ s.conversations, c.conversation_id ≠ cid) :
    (∃ conv, ConversationManager.getConversation
        (runAddMessages cid (ConversationManager.createConversation s t0 cid uid meta).1 items) cid
        = some conv ∧ conv.message_count = items.length)
    ∧ (∀ (st : DBState) (it : MsgItem),
        ((ConversationManager.addMessage st it.time it.msgId cid it.role it.content it.meta).1).messages
          = st.messages ++ [itemRow cid it]
        ∧ ((ConversationManager.getConversation
              ((ConversationManager.addMessage st it.time it.msgId cid it.role it.content it.meta).1)
              cid).map fun r => r.message_count)
          = ((ConversationManager.getConversation st cid).map fun r => r.message_count + 1))
    ∧ ∀ (limit : Option Nat) (offset : Nat),
        ConversationManager.getConversationHistory cfg
          (runAddMessages cid (ConversationManager.createConversation s t0 cid uid meta).1 items)
          cid limit offset
        = .error ConversationManager.topOffsetError := by
  refine ⟨?_, ?_, ?_⟩
  · obtain ⟨conv2, h2, hc⟩ := runAddMessages_messageCount cid items _ _
      (getConversation_createConversation s t0 cid uid meta hfreshConv)
    refine ⟨conv2, h2, ?_⟩
    have hc0 : (ConversationManager.createConversation s t0 cid uid meta).2.message_count = 0 := rfl
    omega
  · intro st it
    exact ⟨rfl, getConversation_addMessage_count st it.time it.msgId cid it.role it.content it.meta⟩
  · intro limit offset
    rfl

/-- C1 witness: a fresh conversation, two messages at times 1 and 2: the
persisted count is 2, yet the history read fails with the SQL error. -/
theorem addMessage_count_atomic_history_error_witness :
    (∃ conv, ConversationManager.getConversation
        (runAddMessages "c1"
          (ConversationManager.createConversation ⟨[], []⟩ 0 "c1" none "m").1
          [⟨1, "m1", "user", "hello", "m"⟩, ⟨2, "m2", "assistant", "hi there", "m"⟩]) "c1"
      = some conv ∧ conv.message_count = 2)
    ∧ ConversationManager.getConversationHistory ConversationManager.defaultConfig
        (runAddMessages "c1"
          (ConversationManager.createConversation ⟨[], []⟩ 0 "c1" none "m").1
          [⟨1, "m1", "user", "hello", "m"⟩, ⟨2, "m2", "assistant", "hi there", "m"⟩])
        "c1" (some 2) 0
      = .error ConversationManager.topOffsetError := by
  have h := addMessage_count_atomic_history_error ConversationManager.defaultConfig ⟨[], []⟩ 0 "c1"
    none "m" [⟨1, "m1", "user", "hello", "m"⟩, ⟨2, "m2", "assistant", "hi there", "m"⟩]
    (by simp)
  exact ⟨h.1, h.2.2 (some 2) 0⟩

/-- Integer arithmetic form of the ceiling: `(n + 3) / 4` in `ℕ` is
`⌈n / 4⌉` over the rationals. -/
theorem add_three_div_four_eq_ceil (n : ℕ) : ((n + 3) / 4 : ℕ) = ⌈(n : ℚ) / 4⌉₊ := by
  rcases Nat.eq_zero_or_pos n with h0 | h0
  · subst h0
    simp
  · set k := (n + 3) / 4 with hk
    have h2 : n ≤ 4 * k := by omega
    have h3 : 4 * (k - 1) < n := by omega
    rw [eq_comm, Nat.ceil_eq_iff (by omega : k ≠ 0)]
    constructor
    · rw [lt_div_iff₀ (by norm_num : (0:ℚ) < 4)]
      calc ((k - 1 : ℕ) : ℚ) * 4 = ((4 * (k - 1) : ℕ) : ℚ) := by push_cast; ring
        _ < n := by exact_mod_cast h3
    · rw [div_le_iff₀ (by norm_num : (0:ℚ) < 4)]
      calc (n : ℚ) ≤ ((4 * k : ℕ) : ℚ) := by exact_mod_cast h2
        _ = (k : ℚ) * 4 := by push_cast; ring

/-- C2: the token estimate is the ceiling of length divided by 4
(`estimate("abcd") = 1`, `estimate("abcde") = 2`), and the two
implementations of the estimator — `ConversationManager.estimateTokenCount`
and `AIService.estimateTokenCount` — compute the same function. -/
theorem estimateTokenCount_spec :
    (∀ s : String, ConversationManager.estimateTokenCount s = ⌈(s.length : ℚ) / 4⌉₊)
    ∧ ConversationManager.estimateTokenCount "abcd" = 1
    ∧ ConversationManager.estimateTokenCount "abcde" = 2
    ∧ ∀ s : String, ConversationManager.estimateTokenCount s = AIService.estimateTokenCount s :=
  ⟨fun s => add_three_div_four_eq_ceil s.length, rfl, rfl, fun _ => rfl⟩

/-- C3 (code bug evidence): `buildConversationContext` retrieves the history
through `getConversationHistory`, whose `TOP`+`OFFSET` query SQL Server
rejects (error 10741), and its catch block rethrows — so every call fails
with that error; in particular on a fresh conversation with no prior
messages and `includeSystemPrompt = true` it fails instead of returning
exactly the one system-prompt entry the claim requires. -/
theorem buildConversationContext_always_fails :
    (∀ (cfg : ConversationManager.Config) (s : DBState) (cid : String)
        (includeSystemPrompt : Bool),
      ConversationManager.buildConversationContext cfg s cid includeSystemPrompt
        = .error ConversationManager.topOffsetError)
    ∧ ConversationManager.buildConversationContext ConversationManager.defaultConfig
        (ConversationManager.createConversation ⟨[], []⟩ 0 "c1" none "m").1 "c1" true
      = .error ConversationManager.topOffsetError :=
  ⟨fun _ _ _ _ => rfl, rfl⟩

/-- C9: `generateAIResponse` is total — its result type is a plain record,
not an `Except`, so no internal failure propagates to the caller — and when
the tried response computation fails (`simOutcome = .error e`, the `catch`
path) the returned content is the fixed `'error'` system prompt (the
configured apology), with the `error` flag set. On success the produced
content is returned unchanged. -/
theorem generateAIResponse_error_fallback :
    (∀ (e : String) (t : Int),
      (AIService.generateAIResponse (Except.error e) t).content = AIConfig.getSystemPrompt "error"
      ∧ (AIService.generateAIResponse (Except.error e) t).error = true)
    ∧ ∀ (r : String) (t : Int),
      (AIService.generateAIResponse (Except.ok r) t).content = r :=
  ⟨fun _ _ => ⟨rfl, rfl⟩, fun _ _ => rfl⟩

set_option maxRecDepth 8000 in
/-- C4: the response generator is a deterministic, stateless function of the
lowercased latest context entry: earlier turns are ignored, and the branch
map is `property`/`house` → the property paragraph, else `price`/`market` →
the pricing paragraph, else `schedule`/`viewing` → the scheduling paragraph,
else `agent`/`realtor` → the agent paragraph, else the generic greeting. In
particular a chat on the fresh input "I need a house" returns the property
paragraph, whose text contains the word "property", under a fresh
conversation id. -/
theorem simulateAIResponse_classifier :
    (∀ (ctx : List ContextEntry) (entry : ContextEntry),
      AIService.simulateAIResponse (ctx ++ [entry]) = AIService.simulateAIResponse [entry])
    ∧ (∀ e : ContextEntry,
      ((jsIncludes (jsToLower e.content) "property" || jsIncludes (jsToLower e.content) "house") = true →
        AIService.simulateAIResponse [e] = AIService.propertyResponse)
      ∧ ((jsIncludes (jsToLower e.content) "property" || jsIncludes (jsToLower e.content) "house") = false →
          (jsIncludes (jsToLower e.content) "price" || jsIncludes (jsToLower e.content) "market") = true →
          AIService.simulateAIResponse [e] = AIService.pricingResponse)
      ∧ ((jsIncludes (jsToLower e.content) "property" || jsIncludes (jsToLower e.content) "house") = false →
          (jsIncludes (jsToLower e.content) "price" || jsIncludes (jsToLower e.content) "market") = false →
          (jsIncludes (jsToLower e.content) "schedule" || jsIncludes (jsToLower e.content) "viewing") = true →
          AIService.simulateAIResponse [e] = AIService.schedulingResponse)
      ∧ ((jsIncludes (jsToLower e.content) "property" || jsIncludes (jsToLower e.content) "house") = false →
          (jsIncludes (jsToLower e.content) "price" || jsIncludes (jsToLower e.content) "market") = false →
          (jsIncludes (jsToLower e.content) "schedule" || jsIncludes (jsToLower e.content) "viewing") = false →
          (jsIncludes (jsToLower e.content) "agent" || jsIncludes (jsToLower e.content) "realtor") = true →
          AIService.simulateAIResponse [e] = AIService.agentResponse)
      ∧ ((jsIncludes (jsToLower e.content) "property" || jsIncludes (jsToLower e.content) "house") = false →
          (jsIncludes (jsToLower e.content) "price" || jsIncludes (jsToLower e.content) "market") = false →
          (jsIncludes (jsToLower e.content) "schedule" || jsIncludes (jsToLower e.content) "viewing") = false →
          (jsIncludes (jsToLower e.content) "agent" || jsIncludes (jsToLower e.content) "realtor") = false →
          AIService.simulateAIResponse [e] = AIService.greetingResponse))
    ∧ AIService.simulateAIResponse [⟨"user", "I need a house"⟩] = AIService.propertyResponse
    ∧ jsIncludes AIService.propertyResponse "property" = true
    ∧ ∀ (cfg : ConversationManager.Config) (env : AIService.ChatEnv),
        ∃ s1 r, AIService.processChatMessage cfg env ⟨[], []⟩ "I need a house" none (some "u1") "m"
            = .ok (s1, r)
          ∧ jsIncludes r.response "property" = true
          ∧ r.conversationId = env.newConversationId := by
  refine ⟨?_, ?_, by decide, by decide, ?_⟩
  · intro ctx entry
    simp [AIService.simulateAIResponse, List.getLast?_concat]
  · intro e
    refine ⟨?_, ?_, ?_, ?_, ?_⟩
    · intro h1
      simp [AIService.simulateAIResponse, h1]
    · intro h1 h2
      simp [AIService.simulateAIResponse, h1, h2]
    · intro h1 h2 h3
      simp [AIService.simulateAIResponse, h1, h2, h3]
    · intro h1 h2 h3 h4
      simp [AIService.simulateAIResponse, h1, h2, h3, h4]
    · intro h1 h2 h3 h4
      simp [AIService.simulateAIResponse, h1, h2, h3, h4]
  · intro cfg env
    refine ⟨_, _, rfl, ?_, rfl⟩
    exact (by decide : jsIncludes (AIService.simulateAIResponse
      [⟨"system", AIConfig.getSystemPrompt "base"⟩, ⟨"user", "I need a house"⟩])
        "property" = true)

/-- C5 (code bug evidence): with a `conversationId` supplied,
`processChatMessage` builds the context via `buildConversationContext`,
which always fails (SQL error 10741 from the `TOP`+`OFFSET` history query),
before any message is appended — so the call never resolves: no metadata
`prior + 2` is returned and no persisted `+4` after two calls can be
observed. With an unknown id it fails with the not-found error instead; a
call on an existing conversation fails with the SQL error, as the concrete
run shows. -/
theorem processChatMessage_existing_conversation_fails :
    (∀ (cfg : ConversationManager.Config) (env : AIService.ChatEnv) (s : DBState)
        (msg cid : String) (uid : Option String) (ctx : String),
      ∃ e, AIService.processChatMessage cfg env s msg (some cid) uid ctx = .error e)
    ∧ AIService.processChatMessage ConversationManager.defaultConfig
        ⟨"nc", "m1", "m2", 0, 1, 2, 5⟩
        ⟨[⟨"c1", "u1", 0, 0, "active", "m", 0⟩], []⟩ "hello" (some "c1") none "m"
      = .error ConversationManager.topOffsetError := by
  constructor
  · intro cfg env s msg cid uid ctx
    cases h : ConversationManager.getConversation s cid with
    | none =>
      exact ⟨"Conversation not found", by simp [AIService.processChatMessage, h]⟩
    | some conv =>
      exact ⟨ConversationManager.topOffsetError,
        by simp [AIService.processChatMessage, h, ConversationManager.buildConversationContext,
          ConversationManager.getConversationHistory]⟩
  · rfl

/-- C7: `cleanupOldConversations` soft-deletes exactly the conversations
created strictly before `now - dataRetentionDays`: its return value is the
number of rows the UPDATE mutates (old rows not already soft-deleted), every
row older than the cutoff ends with status `'deleted'`, every other row (and
the whole `Messages` table) is left byte-identical, and in the concrete
default-retention (90 days) scenario a conversation created 91 days ago is
soft-deleted while one created 89 days ago is untouched, with return value
1. -/
theorem cleanupOldConversations_spec (cfg : ConversationManager.Config) (s : DBState) (now : Int) :
    ((ConversationManager.cleanupOldConversations cfg s now).2
      = (s.conversations.filter fun c =>
          c.created_at < now - cfg.dataRetentionDays && c.status != "deleted").length)
    ∧ (ConversationManager.cleanupOldConversations cfg s now).1.messages = s.messages
    ∧ (∀ (i : Nat) (c : ConversationRow), s.conversations[i]? = some c →
        ¬(c.created_at < now - cfg.dataRetentionDays ∧ c.status ≠ "deleted") →
        (ConversationManager.cleanupOldConversations cfg s now).1.conversations[i]? = some c)
    ∧ (∀ (i : Nat) (c : ConversationRow), s.conversations[i]? = some c →
        c.created_at < now - cfg.dataRetentionDays →
        ∃ c2, (ConversationManager.cleanupOldConversations cfg s now).1.conversations[i]?
            = some c2
          ∧ c2.status = "deleted" ∧ c2.conversation_id = c.conversation_id)
    ∧ (ConversationManager.cleanupOldConversations ConversationManager.defaultConfig
        ⟨[⟨"old", "u", 909, 909, "active", "m", 0⟩, ⟨"new", "u", 911, 911, "active", "m", 0⟩],
          []⟩ 1000).2 = 1
    ∧ (ConversationManager.cleanupOldConversations ConversationManager.defaultConfig
        ⟨[⟨"old", "u", 909, 909, "active", "m", 0⟩, ⟨"new", "u", 911, 911, "active", "m", 0⟩],
          []⟩ 1000).1.conversations
      = [⟨"old", "u", 909, 1000, "deleted", "m", 0⟩, ⟨"new", "u", 911, 911, "active", "m", 0⟩]
    := by
  refine ⟨rfl, rfl, ?_, ?_, by decide, by decide⟩
  · intro i c hget hcond
    simp only [ConversationManager.cleanupOldConversations]
    rw [List.getElem?_map, hget]
    by_cases h1 : c.created_at < now - cfg.dataRetentionDays
    · have h2 : c.status = "deleted" := by tauto
      simp [h1, h2]
    · simp [h1]
  · intro i c hget hold
    simp only [ConversationManager.cleanupOldConversations]
    rw [List.getElem?_map, hget]
    by_cases h2 : c.status = "deleted"
    · exact ⟨c, by simp [h2], h2, rfl⟩
    · exact ⟨{ c with status := "deleted", updated_at := now }, by simp [hold, h2], rfl, rfl⟩

/-- C8: `updateConversationStatus` fails with the not-found error exactly
when the UPDATE affects zero rows (no row carries the id — soft-deleted rows
do count as affected); when at least one row carries the id it returns
without error, having set the new status, refreshed `updated_at`, and
overwritten the metadata when one was supplied, leaving every other row and
the `Messages` table unchanged. -/
theorem updateConversationStatus_spec (s : DBState) (now : Int) (cid status : String)
    (md : Option String) :
    ((∃ e, ConversationManager.updateConversationStatus s now cid status md = .error e)
      ↔ (s.conversations.filter fun c => c.conversation_id = cid).length = 0)
    ∧ ∀ c0 ∈ s.conversations, c0.conversation_id = cid →
        ∃ s2, ConversationManager.updateConversationStatus s now cid status md = .ok s2
          ∧ (∀ (i : Nat) (c : ConversationRow), s.conversations[i]? = some c →
              s2.conversations[i]?
                = some (if c.conversation_id = cid then
                    { c with status := status, updated_at := now, metadata := md.getD c.metadata }
                  else c))
          ∧ s2.messages = s.messages := by
  constructor
  · by_cases h : (s.conversations.filter fun c => c.conversation_id = cid).length = 0
    · simp [ConversationManager.updateConversationStatus, h]
    · simp [ConversationManager.updateConversationStatus, h]
  · intro c0 hc0 hid
    have hne : (s.conversations.filter fun c => c.conversation_id = cid).length ≠ 0 := by
      have : c0 ∈ s.conversations.filter fun c => c.conversation_id = cid :=
        List.mem_filter.mpr ⟨hc0, by simp [hid]⟩
      have := List.length_pos.mpr (List.ne_nil_of_mem this)
      omega
    simp only [ConversationManager.updateConversationStatus]
    rw [if_neg hne]
    refine ⟨_, rfl, ?_, rfl⟩
    intro i c hget
    rw [List.getElem?_map, hget]
    rfl

/-- C10 (implicit): `updateConversationStatus` has no status filter in its
WHERE clause, so it succeeds on a conversation every one of whose rows is
soft-deleted — a state in which `getConversation` returns `null` — and
setting the status back to `'active'` makes the conversation visible again
both to `getConversation` (which then returns a row with status `'active'`)
and to `getUserConversations` for its owner (which filters out
`'deleted'`). -/
theorem updateConversationStatus_revives_deleted (s : DBState) (now : Int) (cid : String)
    (c0 : ConversationRow)
    (hall : ∀ c ∈ s.conversations, c.conversation_id = cid → c.status = "deleted")
    (hc0 : c0 ∈ s.conversations) (hid : c0.conversation_id = cid) :
    ConversationManager.getConversation s cid = none
    ∧ ∃ s2, ConversationManager.updateConversationStatus s now cid "active" none = .ok s2
      ∧ (∃ c2, ConversationManager.getConversation s2 cid = some c2 ∧ c2.status = "active")
      ∧ ∀ limit : Nat, s.conversations.length ≤ limit →
          { c0 with status := "active", updated_at := now }
            ∈ ConversationManager.getUserConversations s2 c0.user_id limit 0 := by
  have hnone : ConversationManager.getConversation s cid = none := by
    simp only [ConversationManager.getConversation]
    rw [List.find?_eq_none]
    intro c hc
    by_cases h : c.conversation_id = cid
    · simp [h, hall c hc h]
    · simp [h]
  have hne : (s.conversations.filter fun c => c.conversation_id = cid).length ≠ 0 := by
    have hmem : c0 ∈ s.conversations.filter fun c => c.conversation_id = cid :=
      List.mem_filter.mpr ⟨hc0, by simp [hid]⟩
    have := List.length_pos.mpr (List.ne_nil_of_mem hmem)
    omega
  refine ⟨hnone, ?_⟩
  simp only [ConversationManager.updateConversationStatus]
  rw [if_neg hne]
  refine ⟨_, rfl, ?_, ?_⟩
  · -- after the UPDATE, `find?` sees the first row carrying the id, now active
    simp only [ConversationManager.getConversation]
    have hfind : (s.conversations.map fun c =>
        if c.conversation_id = cid then
          { c with status := "active", updated_at := now, metadata := (none : Option String).getD c.metadata }
        else c).find? (fun c => c.conversation_id = cid && c.status != "deleted")
        = ((s.conversations.find? fun c => c.conversation_id = cid).map fun c =>
            if c.conversation_id = cid then
              { c with status := "active", updated_at := now, metadata := (none : Option String).getD c.metadata }
            else c) := by
      rw [List.find?_map]
      refine congrArg (Option.map _) ?_
      refine congrArg (fun p => List.find? p s.conversations) ?_
      funext c
      by_cases h : c.conversation_id = cid <;> simp [h]
    have hsome : ∃ cf, (s.conversations.find? fun c => c.conversation_id = cid) = some cf := by
      have : ((s.conversations.find? fun c => c.conversation_id = cid).isSome) = true :=
        List.find?_isSome.mpr ⟨c0, hc0, by simp [hid]⟩
      exact Option.isSome_iff_exists.mp this
    obtain ⟨cf, hcf⟩ := hsome
    have hcfid : cf.conversation_id = cid := by
      have := List.find?_some hcf
      simpa using this
    refine ⟨{ cf with status := "active", updated_at := now }, ?_, rfl⟩
    rw [hfind, hcf]
    simp [hcfid]
  · intro limit hlim
    simp only [ConversationManager.getUserConversations, List.drop_zero]
    have hmem2 : { c0 with status := "active", updated_at := now }
        ∈ (s.conversations.map fun c =>
            if c.conversation_id = cid then
              { c with status := "active", updated_at := now, metadata := (none : Option String).getD c.metadata }
            else c) := by
      have := List.mem_map_of_mem (fun c : ConversationRow =>
        if c.conversation_id = cid then
          { c with status := "active", updated_at := now, metadata := (none : Option String).getD c.metadata }
        else c) hc0
      simpa [hid] using this
    have hmemf : { c0 with status := "active", updated_at := now }
        ∈ (s.conversations.map fun c =>
            if c.conversation_id = cid then
              { c with status := "active", updated_at := now, metadata := (none : Option String).getD c.metadata }
            else c).filter (fun c => c.user_id = c0.user_id && c.status != "deleted") :=
      List.mem_filter.mpr ⟨hmem2, by simp⟩
    set l2 := (s.conversations.map fun c =>
        if c.conversation_id = cid then
          { c with status := "active", updated_at := now, metadata := (none : Option String).getD c.metadata }
        else c).filter (fun c => c.user_id = c0.user_id && c.status != "deleted") with hl2
    have hlen : (sortByDesc (fun c : ConversationRow => c.updated_at) l2).length ≤ limit := by
      rw [length_sortByDesc]
      calc l2.length ≤ s.conversations.length := by
            rw [hl2]
            exact le_trans (List.length_filter_le _ _) (by simp)
        _ ≤ limit := hlim
    rw [List.take_of_length_le hlen]
    exact (mem_sortByDesc _).mpr hmemf

/-- C10 witness: one soft-deleted conversation; `getConversation` is `null`,
the status update succeeds, and the row is visible again afterwards. -/
theorem updateConversationStatus_revives_deleted_witness :
    ConversationManager.getConversation ⟨[⟨"c1", "u1", 0, 0, "deleted", "m", 3⟩], []⟩ "c1" = none
    ∧ ∃ s2, ConversationManager.updateConversationStatus
        ⟨[⟨"c1", "u1", 0, 0, "deleted", "m", 3⟩], []⟩ 7 "c1" "active" none = .ok s2
      ∧ (∃ c2, ConversationManager.getConversation s2 "c1" = some c2 ∧ c2.status = "active")
      ∧ ∀ limit : Nat, 1 ≤ limit →
          (⟨"c1", "u1", 0, 7, "active", "m", 3⟩ : ConversationRow)
            ∈ ConversationManager.getUserConversations s2 "u1" limit 0 :=
  updateConversationStatus_revives_deleted ⟨[⟨"c1", "u1", 0, 0, "deleted", "m", 3⟩], []⟩ 7 "c1"
    ⟨"c1", "u1", 0, 0, "deleted", "m", 3⟩ (by decide) (by decide) rfl

/-- C6 evidence: the empty-recordset guard in `getMarketAnalysis` is dead
code — the aggregate SELECT (no `GROUP BY`) yields exactly one row even over
zero matching properties, so the function never reaches its
`'No market data found'` throw; for every input it returns `.ok`, and at a
concrete input with zero matching rows (empty `Properties` table, location
"Nowhere") it returns an analysis with `totalListings = 0` and zero/null
statistics instead of the NotFoundError the spec requires. -/
theorem getMarketAnalysis_no_rows_returns_ok :
    (∀ (properties : List BrokerService.PropertyRow) (location propertyType : String)
        (now sixMonthsAgo : Int),
      ∃ a, BrokerService.getMarketAnalysis properties location propertyType now sixMonthsAgo
        = .ok a)
    ∧ BrokerService.getMarketAnalysis [] "Nowhere" "residential" 1000 818
      = .ok { location := "Nowhere", propertyType := "residential", totalListings := 0,
              priceStatistics :=
                { average := 0, minimum := none, maximum := none, pricePerSquareFoot := none },
              marketActivity :=
                { averageDaysOnMarket := 0, soldProperties := 0, activeListings := 0,
                  absorptionRate := 0 },
              averageSquareFootage := 0, dataRange := "Last 6 months" } :=
  ⟨fun _ _ _ _ _ => ⟨_, rfl⟩, rfl⟩
